import Mathlib

/-!
Verification of the drag-to-rectangle core of `draw-a-square`.

The embedding follows `src/index.ts` (the third, interface-importing variant,
whose line numbers the claims cite) together with
`src/unnamed/part_000` (`drag-states.interface`),
`src/unnamed/part_001` (`drag-events.interface`) and
`src/unnamed/part_002` (`store/squares.state`).

Coordinates and counts are JavaScript numbers used only at integer values in
this program, so they are modelled as `Int` (in particular `squareCount` may
go negative, exactly as a JS number would).
-/

namespace DrawASquare

/-- `Coordinates` from `src/unnamed/part_001`: `{x: number, y: number}`. -/
structure Coordinates where
  x : Int
  y : Int
deriving DecidableEq

/-- `DragDirection` from `src/unnamed/part_001`:
`{dragLeft: boolean, dragUp: boolean}`. -/
structure DragDirection where
  dragLeft : Bool
  dragUp : Bool
deriving DecidableEq

/-- `SquaresState` from `src/unnamed/part_000`. -/
structure SquaresState where
  coordinates : Coordinates
  dragging : Bool
  startPoint : Coordinates
  endPoint : Coordinates
  dragType : String
  dragDirection : DragDirection
  squareCount : Int
deriving DecidableEq

/-- The initial state `currentSquaresState` (src/unnamed/part_002 lines 6-20,
identically src/index.ts). -/
def currentSquaresState : SquaresState :=
  { coordinates := ⟨0, 0⟩
    dragging := false
    startPoint := ⟨0, 0⟩
    endPoint := ⟨0, 0⟩
    dragType := ""
    dragDirection := ⟨false, false⟩
    squareCount := 0 }

/-- `getState` (src/unnamed/part_002 lines 30-46): rebuilds the state,
recomputing `dragDirection` from `startPoint` and `coordinates`.
The source writes `state.startPoint.x > state.coordinates.x || false`;
`|| false` on a boolean is the identity and is kept verbatim. -/
def getState (state : SquaresState) : SquaresState :=
  { dragging := state.dragging
    coordinates := ⟨state.coordinates.x, state.coordinates.y⟩
    startPoint := ⟨state.startPoint.x, state.startPoint.y⟩
    endPoint := ⟨state.endPoint.x, state.endPoint.y⟩
    dragType := state.dragType
    dragDirection :=
      ⟨decide (state.startPoint.x > state.coordinates.x) || false,
       decide (state.startPoint.y > state.coordinates.y) || false⟩
    squareCount := state.squareCount }

/-- The mapped mouse event `{clientX, clientY, type}` produced by the
`mouseDown$` / `mouseMove$` / `mouseUp$` pipes (src/index.ts lines 613-636):
`type` is `"start"`, `"drag"` or `"cancel"` for genuine pointer events, but
the handler itself receives an arbitrary string tag. -/
structure MouseEv where
  clientX : Int
  clientY : Int
  type : String
deriving DecidableEq

/-- A command entering the core: a mapped mouse event delivered to the
`mouseEventStream$` subscriber, or a click on the undo / clear buttons
(src/index.ts lines 638-669). -/
inductive Command where
  | mouse (ev : MouseEv)
  | undo
  | clear
deriving DecidableEq

/-- The `mouseEventStream$.subscribe` handler (src/index.ts lines 645-668).
Each branch calls `setState`, i.e. publishes `getState` of the updated state.
Note there is no check of `dragging`, and the final `else` catches every
type tag other than `"start"` and `"cancel"`. -/
def handleMouseEvent (cur : SquaresState) (state : MouseEv) : SquaresState :=
  if state.type = "start" then
    getState { cur with
      dragging := true
      startPoint := ⟨state.clientX, state.clientY⟩
      dragType := state.type }
  else if state.type = "cancel" then
    getState { cur with
      dragging := false
      endPoint := ⟨state.clientX, state.clientY⟩
      dragType := state.type
      squareCount := cur.squareCount + 1 }
  else
    getState { cur with
      coordinates := ⟨state.clientX, state.clientY⟩
      dragType := state.type }

/-- State effect of `undoLast` (src/index.ts lines 587-596) when its
`setState` call is reached: `setState({...curState, squareCount:
curState.squareCount - 1})`, with no guard on the count. The DOM prelude
`main.removeChild(document.getElementById(undoSquare[0]['id']))` throws a
TypeError before `setState` whenever `#main` has no children; that error
path is modelled faithfully by `undoLastPage` below, which wraps this state
effect in the canvas guard. This unguarded version therefore only adds
decrement behaviours, which is conservative for the non-negativity
invariant proved over it. -/
def undoLast (cur : SquaresState) : SquaresState :=
  getState { cur with squareCount := cur.squareCount - 1 }

/-- State effect of `clearSVG` (src/index.ts lines 597-604):
`setState({...curState, squareCount: 0})`. -/
def clearSVG (cur : SquaresState) : SquaresState :=
  getState { cur with squareCount := 0 }

/-- One accepted command, dispatched exactly as `gatherEventStream` wires it:
mouse events to the stream handler, button clicks to `undoLast` / `clearSVG`. -/
def step (cur : SquaresState) : Command → SquaresState
  | .mouse ev => handleMouseEvent cur ev
  | .undo => undoLast cur
  | .clear => clearSVG cur

/-- Processing a finite command sequence in order. -/
def run (cur : SquaresState) : List Command → SquaresState
  | [] => cur
  | c :: cs => run (step cur c) cs

/-- The abstract `StartDrag(p)` command: a mapped `mousedown` event. -/
def startDrag (x y : Int) : Command := .mouse ⟨x, y, "start"⟩

/-- The abstract `Move(p)` command: a mapped `mousemove` event. -/
def move (x y : Int) : Command := .mouse ⟨x, y, "drag"⟩

/-- The abstract `EndDrag(p)` command: a mapped `mouseup` event. -/
def endDrag (x y : Int) : Command := .mouse ⟨x, y, "cancel"⟩

/-- A normalized rectangle: top-left origin plus width and height. -/
structure Rectangle where
  origin : Coordinates
  width : Int
  height : Int
deriving DecidableEq

/-- The geometry resolution the code performs for a square anchored at
`anchor` with current pointer `current`: the direction flags come from
`getState` (src/unnamed/part_002 lines 41-42), the width/height formulas from
`drawSquare` (src/index.ts lines 550-556), and the origin from `initDraw`
placing the square at the anchor (src/index.ts lines 528-530) combined with
`drawSquare` moving its `x` (resp. `y`) attribute to the current point
exactly when dragging left (resp. up) (src/index.ts lines 564-570). -/
def resolve (anchor current : Coordinates) : Rectangle :=
  { origin := ⟨if anchor.x > current.x then current.x else anchor.x,
               if anchor.y > current.y then current.y else anchor.y⟩
    width := if anchor.x > current.x then anchor.x - current.x else current.x - anchor.x
    height := if anchor.y > current.y then anchor.y - current.y else current.y - anchor.y }

/-- Modelled from the spec: the State Store is the rxjs `BehaviorSubject`
(src/unnamed/part_002 lines 24-29); rxjs is a library dependency whose code
is not part of this repository, so its replay-last contract is modelled from
the spec: the store holds a current value and a list of observers in
registration order. Observers are identified by `Nat` tags. -/
structure Store (α : Type) where
  current : α
  observers : List Nat

/-- Modelled from the spec: `subscribe(observer)` registers the observer and
immediately invokes it once with the currently held snapshot, before
returning. The returned emission list is exactly what the new observer is
invoked with during the call. -/
def subscribeStore {α : Type} (st : Store α) (obs : Nat) : Store α × List (Nat × α) :=
  ({ st with observers := st.observers ++ [obs] }, [(obs, st.current)])

/-- Modelled from the spec: `publish(snapshot)` (i.e. `next`) replaces the
held value and synchronously invokes every currently registered observer
with the new snapshot, in registration order. -/
def publish {α : Type} (st : Store α) (v : α) : Store α × List (Nat × α) :=
  ({ st with current := v }, st.observers.map fun o => (o, v))

/-- The derived-direction invariant of a snapshot: the direction flags agree
with comparing the anchor against the current point. -/
def dirInv (s : SquaresState) : Prop :=
  s.dragDirection.dragLeft = decide (s.startPoint.x > s.coordinates.x) ∧
  s.dragDirection.dragUp = decide (s.startPoint.y > s.coordinates.y)

instance (s : SquaresState) : Decidable (dirInv s) := by
  unfold dirInv; infer_instance

/-- Reachability by command sequences in which Undo is only ever submitted
while the count is positive (which is what the disabled undo button enforces
in the deployed page). -/
inductive GuardedReachable : SquaresState → Prop where
  | init : GuardedReachable currentSquaresState
  | next (s : SquaresState) (c : Command) (h : GuardedReachable s)
      (hg : c = Command.undo → 0 < s.squareCount) : GuardedReachable (step s c)

/-- The page-level state: the published snapshot together with the number of
child nodes of the `#main` container (which starts empty; the only code
touching it is `initDraw`'s `appendChild`, `undoLast`'s `removeChild` and
`clearSVG`'s `innerHTML = ''`). The child count is what gates the real
`undoLast`. -/
structure PageState where
  state : SquaresState
  canvas : Nat
deriving DecidableEq

/-- Canvas effect of the synchronous `squaresState.subscribe` observer
(src/index.ts lines 641-644) on a published snapshot: `renderUi` calls
`initDraw`, which appends one bounding box to `#main`, exactly when
`state.dragging && state.dragType === 'start'` (src/index.ts lines 503-505);
no other branch changes the child list (`drawSquare` only sets attributes,
and may itself throw after the state assignment, which changes nothing
modelled here). -/
def renderUiCanvas (state : SquaresState) (canvas : Nat) : Nat :=
  if state.dragging && state.dragType == "start" then canvas + 1 else canvas

/-- The full `undoLast` (src/index.ts lines 587-596) including its DOM
prelude. With no children, `undoSquare[0]` is `undefined` and the `['id']`
access throws a TypeError before `removeChild` and before `setState`:
nothing is emitted and the page is unchanged (`none`). Otherwise one child
(a bounding box carrying an id) is removed, and `setState` publishes exactly
one snapshot, whose own `renderUi` may re-append a box when the snapshot is
still in the `'start'` phase of a drag. -/
def undoLastPage (p : PageState) : Option (PageState × List SquaresState) :=
  match p.canvas with
  | 0 => none
  | n + 1 =>
    let t := undoLast p.state
    some (⟨t, renderUiCanvas t n⟩, [t])

/-- A mapped mouse event at page level: the handler publishes exactly one
snapshot, and its `renderUi` updates the canvas. -/
def mousePage (p : PageState) (ev : MouseEv) : PageState × List SquaresState :=
  let t := handleMouseEvent p.state ev
  (⟨t, renderUiCanvas t p.canvas⟩, [t])

/-- The full `clearSVG` (src/index.ts lines 597-604): `main.innerHTML = ''`
empties the canvas first, then `setState` publishes exactly one snapshot,
whose `renderUi` runs against the emptied canvas. -/
def clearPage (p : PageState) : PageState × List SquaresState :=
  let t := clearSVG p.state
  (⟨t, renderUiCanvas t 0⟩, [t])

/-- One command at page level; `none` means the command's handler threw
(only Undo can, on an empty canvas) before reaching `setState`. -/
def stepPage (p : PageState) : Command → Option (PageState × List SquaresState)
  | .mouse ev => some (mousePage p ev)
  | .undo => undoLastPage p
  | .clear => some (clearPage p)

/-- A thrown handler error propagates uncaught to the browser event loop:
the page is unchanged, nothing was emitted, and later events still
dispatch. -/
def stepPageTotal (p : PageState) (c : Command) : PageState × List SquaresState :=
  match stepPage p c with
  | some r => r
  | none => (p, [])

/-- Processing a finite command sequence at page level. -/
def runPage (p : PageState) : List Command → PageState
  | [] => p
  | c :: cs => runPage (stepPageTotal p c).1 cs

@[simp] theorem getState_squareCount (s : SquaresState) :
    (getState s).squareCount = s.squareCount := rfl

@[simp] theorem getState_dragging (s : SquaresState) :
    (getState s).dragging = s.dragging := rfl

@[simp] theorem getState_coordinates (s : SquaresState) :
    (getState s).coordinates = s.coordinates := rfl

@[simp] theorem getState_startPoint (s : SquaresState) :
    (getState s).startPoint = s.startPoint := rfl

@[simp] theorem getState_endPoint (s : SquaresState) :
    (getState s).endPoint = s.endPoint := rfl

@[simp] theorem getState_dragType (s : SquaresState) :
    (getState s).dragType = s.dragType := rfl

theorem getState_dirInv (t : SquaresState) : dirInv (getState t) := by
  unfold dirInv getState
  simp

/-- Claim C5: the geometry resolution is direction-agnostic: widths and
heights are symmetric in the two points, `resolve(A,A)` is the zero rectangle
at `A`, width and height are the absolute coordinate differences (hence
non-negative), and the origin is the componentwise minimum. -/
theorem c5_resolve_direction_agnostic (a b : Coordinates) :
    (resolve a b).width = (resolve b a).width ∧
    (resolve a b).height = (resolve b a).height ∧
    resolve a a = ⟨a, 0, 0⟩ ∧
    (resolve a b).width = |b.x - a.x| ∧
    (resolve a b).height = |b.y - a.y| ∧
    0 ≤ (resolve a b).width ∧
    0 ≤ (resolve a b).height ∧
    (resolve a b).origin.x = min a.x b.x ∧
    (resolve a b).origin.y = min a.y b.y := by
  unfold resolve
  dsimp only
  refine ⟨?_, ?_, ?_, ?_, ?_, ?_, ?_, ?_, ?_⟩
  · split_ifs <;> omega
  · split_ifs <;> omega
  · simp
  · split_ifs with h
    · rw [abs_of_neg (by omega)]; omega
    · rw [abs_of_nonneg (by omega)]
  · split_ifs with h
    · rw [abs_of_neg (by omega)]; omega
    · rw [abs_of_nonneg (by omega)]
  · split_ifs <;> omega
  · split_ifs <;> omega
  · split_ifs <;> omega
  · split_ifs <;> omega

/-- Claim C6: from the initial state, the gesture
`StartDrag(10,10); Move(50,70); EndDrag(50,70)` ends Idle
(`dragging = false`) with `squareCount = 1`, and resolving the final
snapshot's anchor and current point gives the rectangle with origin
`(10,10)`, width `40` and height `60`. -/
theorem c6_full_gesture :
    (run currentSquaresState [startDrag 10 10, move 50 70, endDrag 50 70]).dragging = false ∧
    (run currentSquaresState [startDrag 10 10, move 50 70, endDrag 50 70]).squareCount = 1 ∧
    resolve (run currentSquaresState [startDrag 10 10, move 50 70, endDrag 50 70]).startPoint
        (run currentSquaresState [startDrag 10 10, move 50 70, endDrag 50 70]).coordinates
      = ⟨⟨10, 10⟩, 40, 60⟩ := by
  decide

/-- Claim C9: every snapshot produced by a processed command (each of which
goes through `setState`, i.e. `getState`) satisfies the derived-direction
invariant: `dragLeft` iff the anchor is strictly right of the current point
and `dragUp` iff it is strictly below; the flags are recomputed on every
publish and never set directly by any command. -/
theorem c9_direction_derived (s : SquaresState) (c : Command) :
    dirInv (step s c) := by
  cases c with
  | mouse ev =>
    show dirInv (handleMouseEvent s ev)
    unfold handleMouseEvent
    split
    · exact getState_dirInv _
    · split
      · exact getState_dirInv _
      · exact getState_dirInv _
  | undo => exact getState_dirInv _
  | clear => exact getState_dirInv _

/-- Claim C4 counterexample: `StartDrag(10,10)` from the initial state sets
the anchor to `(10,10)` but leaves the current point at `(0,0)` — the code
never assigns `coordinates` in the `"start"` branch — so the emitted
snapshot's rectangle has width 10, not zero. -/
theorem c4_counterexample :
    (step currentSquaresState (startDrag 10 10)).dragging = true ∧
    (step currentSquaresState (startDrag 10 10)).startPoint = ⟨10, 10⟩ ∧
    (step currentSquaresState (startDrag 10 10)).coordinates = ⟨0, 0⟩ ∧
    (resolve (step currentSquaresState (startDrag 10 10)).startPoint
        (step currentSquaresState (startDrag 10 10)).coordinates).width = 10 := by
  decide

/-- Claim C4 (amended): `StartDrag(p)` — from any state, the code has no
phase guard — sets `dragging := true`, the anchor `startPoint := p` and
`dragType := "start"`, and leaves the current point `coordinates` (as well
as `endPoint` and `squareCount`) unchanged; the emitted snapshot's rectangle
is zero-size only when the previous current point already equals `p`. -/
theorem c4_startDrag_effects (s : SquaresState) (x y : Int) :
    (step s (startDrag x y)).dragging = true ∧
    (step s (startDrag x y)).startPoint = ⟨x, y⟩ ∧
    (step s (startDrag x y)).dragType = "start" ∧
    (step s (startDrag x y)).coordinates = s.coordinates ∧
    (step s (startDrag x y)).endPoint = s.endPoint ∧
    (step s (startDrag x y)).squareCount = s.squareCount :=
  ⟨rfl, rfl, rfl, rfl, rfl, rfl⟩

/-- Claim C2 counterexample: from the initial state, whose phase is Idle
(`dragging = false`), `EndDrag(5,5)` is not a no-op: it increments
`squareCount` to 1 and changes the state. -/
theorem c2_counterexample :
    currentSquaresState.dragging = false ∧
    (run currentSquaresState [endDrag 5 5]).squareCount = 1 ∧
    run currentSquaresState [endDrag 5 5] ≠ currentSquaresState := by
  decide

/-- Claim C2 (amended): the handler has no phase guard, so in every state —
in particular in Idle — `Move(p)` sets the current point to `p` and
`dragType` to `"drag"` (leaving `dragging`, anchor, `endPoint` and the count
unchanged), and `EndDrag(p)` sets `dragging := false`, `endPoint := p`,
`dragType := "cancel"` and increments `squareCount` by 1 (leaving the
current point and anchor unchanged); neither is a no-op in Idle. -/
theorem c2_idle_not_ignored (s : SquaresState) (x y : Int) :
    ((step s (move x y)).coordinates = ⟨x, y⟩ ∧
     (step s (move x y)).dragType = "drag" ∧
     (step s (move x y)).dragging = s.dragging ∧
     (step s (move x y)).startPoint = s.startPoint ∧
     (step s (move x y)).endPoint = s.endPoint ∧
     (step s (move x y)).squareCount = s.squareCount) ∧
    ((step s (endDrag x y)).dragging = false ∧
     (step s (endDrag x y)).endPoint = ⟨x, y⟩ ∧
     (step s (endDrag x y)).dragType = "cancel" ∧
     (step s (endDrag x y)).squareCount = s.squareCount + 1 ∧
     (step s (endDrag x y)).coordinates = s.coordinates ∧
     (step s (endDrag x y)).startPoint = s.startPoint) :=
  ⟨⟨rfl, rfl, rfl, rfl, rfl, rfl⟩, ⟨rfl, rfl, rfl, rfl, rfl, rfl⟩⟩

/-- Claim C1 counterexample: `undoLast` has no guard on the count, so the
command sequence `StartDrag(0,0); Undo` — a finite sequence of the listed
commands starting from the initial state — reaches a snapshot with
`squareCount = -1 < 0`. (After `StartDrag` the canvas holds the freshly
created bounding box, so `undoLast` reaches its `setState` call.) -/
theorem c1_counterexample :
    (run currentSquaresState [startDrag 0 0, Command.undo]).squareCount < 0 := by
  decide

/-- Claim C1 (amended): the non-negativity invariant holds for every state
reachable by command sequences in which Undo is only submitted while the
count is positive (the discipline the disabled undo button imposes on the
page); the raw Undo transition itself decrements unconditionally, so an
unguarded Undo at count 0 — possible mid-drag — drives the count to -1. -/
theorem c1_count_nonneg_of_guarded (s : SquaresState) (h : GuardedReachable s) :
    0 ≤ s.squareCount := by
  induction h with
  | init => decide
  | next s c hs hg ih =>
    cases c with
    | mouse ev =>
      show 0 ≤ (handleMouseEvent s ev).squareCount
      unfold handleMouseEvent
      split
      · simpa using ih
      · split
        · simp only [getState_squareCount]
          omega
        · simpa using ih
    | undo =>
      have hpos := hg rfl
      show 0 ≤ (undoLast s).squareCount
      unfold undoLast
      simp only [getState_squareCount]
      omega
    | clear =>
      show 0 ≤ (clearSVG s).squareCount
      unfold clearSVG
      simp only [getState_squareCount]
      omega

/-- Witness for C1: the guarded trace `EndDrag(5,5); Undo` (Undo submitted
at count 1 > 0) is guarded-reachable and its final count is non-negative. -/
theorem c1_witness :
    GuardedReachable (step (step currentSquaresState (endDrag 5 5)) Command.undo) ∧
    0 ≤ (step (step currentSquaresState (endDrag 5 5)) Command.undo).squareCount :=
  have h1 : GuardedReachable (step currentSquaresState (endDrag 5 5)) :=
    GuardedReachable.next currentSquaresState (endDrag 5 5) GuardedReachable.init
      (fun hc => Command.noConfusion hc)
  have h2 : GuardedReachable (step (step currentSquaresState (endDrag 5 5)) Command.undo) :=
    GuardedReachable.next _ Command.undo h1 (fun _ => by decide)
  ⟨h2, c1_count_nonneg_of_guarded _ h2⟩

/-- Claim C3 counterexample: the Undo guard in the code is the canvas child
list, not the count, and both halves of the claim fail. At the reachable
page state after `StartDrag(0,0)` the count is 0 yet Undo is not a no-op:
it emits exactly one snapshot and that snapshot's count is -1. Conversely,
at the reachable page state after a phantom `EndDrag(5,5)` in Idle the count
is 1 > 0, yet Undo emits no snapshot at all: the canvas is empty, so the
handler throws before `setState`. -/
theorem c3_counterexample_canvas :
    (runPage ⟨currentSquaresState, 0⟩ [startDrag 0 0]).state.squareCount = 0 ∧
    (stepPage (runPage ⟨currentSquaresState, 0⟩ [startDrag 0 0]) Command.undo).map
        (fun r => (r.2.length, r.1.state.squareCount)) = some (1, -1) ∧
    (runPage ⟨currentSquaresState, 0⟩ [endDrag 5 5]).state.squareCount = 1 ∧
    stepPage (runPage ⟨currentSquaresState, 0⟩ [endDrag 5 5]) Command.undo = none := by
  decide

/-- Claim C3 (amended): Undo, in any phase, emits exactly one new snapshot —
its `squareCount` decremented by exactly 1, the phase unchanged — precisely
when the canvas has at least one child node; `StartDrag; EndDrag; Undo`
therefore restores the pre-commit count. When the canvas is empty, the
handler throws a TypeError before reaching `setState`: no snapshot is
emitted and the page is unchanged, so Undo immediately after Clear in Idle
leaves the count at 0 — by an uncaught error, not a graceful no-op. -/
theorem c3_undo_guarded_by_canvas (st : SquaresState) (n k : Nat) (px py qx qy : Int) :
    (stepPage ⟨st, n + 1⟩ Command.undo
        = some (⟨undoLast st, renderUiCanvas (undoLast st) n⟩, [undoLast st]) ∧
      (undoLast st).squareCount = st.squareCount - 1 ∧
      (undoLast st).dragging = st.dragging) ∧
    stepPage ⟨st, 0⟩ Command.undo = none ∧
    (runPage ⟨st, k⟩ [startDrag px py, endDrag qx qy, Command.undo]).state.squareCount
      = st.squareCount ∧
    (stepPage (runPage ⟨{ st with dragging := false }, k⟩ [Command.clear]) Command.undo
        = none ∧
      (runPage ⟨{ st with dragging := false }, k⟩
          [Command.clear, Command.undo]).state.squareCount = 0) := by
  refine ⟨⟨rfl, rfl, rfl⟩, rfl, ?_, rfl, rfl⟩
  have h : (runPage ⟨st, k⟩ [startDrag px py, endDrag qx qy, Command.undo]).state.squareCount
      = st.squareCount + 1 - 1 := rfl
  omega

/-- Claim C7: replay-last semantics of the State Store (spec-modelled, the
store being the rxjs `BehaviorSubject` dependency): subscribing invokes the
new observer exactly once, with the currently held snapshot, and leaves it
registered after the already-registered observers; a publish hands the new
snapshot to every currently registered observer in registration order and
replaces the held value. -/
theorem c7_replay_last {α : Type} (st : Store α) (obs : Nat) (v : α) :
    (subscribeStore st obs).2 = [(obs, st.current)] ∧
    (subscribeStore st obs).1.current = st.current ∧
    (subscribeStore st obs).1.observers = st.observers ++ [obs] ∧
    (publish st v).2 = st.observers.map (fun o => (o, v)) ∧
    (publish st v).1.current = v :=
  ⟨rfl, rfl, rfl, rfl, rfl⟩

/-- Claim C8 counterexample: a command with the unrecognized type tag
`"bogus"` is not reported as invalid: the final `else` of the handler
processes it like a move, setting the current point to the event's point
and `dragType` to the raw tag. -/
theorem c8_counterexample :
    (step currentSquaresState (Command.mouse ⟨7, 8, "bogus"⟩)).coordinates = ⟨7, 8⟩ ∧
    (step currentSquaresState (Command.mouse ⟨7, 8, "bogus"⟩)).dragType = "bogus" ∧
    (step currentSquaresState (Command.mouse ⟨7, 8, "bogus"⟩)).squareCount = 0 := by
  decide

/-- Claim C8 (amended): a submitted mouse command whose type tag is neither
`"start"` nor `"cancel"` is processed by the final `else` branch as a move —
current point set to the event's point, `dragType` set to the raw tag, all
other fields preserved — and no invalid-input condition is reported: the
core has no error channel at all. -/
theorem c8_unrecognized_processed_as_move (s : SquaresState) (ev : MouseEv)
    (h1 : ev.type ≠ "start") (h2 : ev.type ≠ "cancel") :
    (step s (Command.mouse ev)).coordinates = ⟨ev.clientX, ev.clientY⟩ ∧
    (step s (Command.mouse ev)).dragType = ev.type ∧
    (step s (Command.mouse ev)).dragging = s.dragging ∧
    (step s (Command.mouse ev)).startPoint = s.startPoint ∧
    (step s (Command.mouse ev)).endPoint = s.endPoint ∧
    (step s (Command.mouse ev)).squareCount = s.squareCount := by
  have h : step s (Command.mouse ev)
      = getState { s with coordinates := ⟨ev.clientX, ev.clientY⟩, dragType := ev.type } := by
    show handleMouseEvent s ev = _
    unfold handleMouseEvent
    rw [if_neg h1, if_neg h2]
  rw [h]
  exact ⟨rfl, rfl, rfl, rfl, rfl, rfl⟩

/-- Witness for C8: the tag `"wat"` is neither `"start"` nor `"cancel"`, and
the command carrying it is processed as a move from the initial state. -/
theorem c8_witness :
    (MouseEv.mk 1 2 "wat").type ≠ "start" ∧
    (MouseEv.mk 1 2 "wat").type ≠ "cancel" ∧
    (step currentSquaresState (Command.mouse ⟨1, 2, "wat"⟩)).coordinates = ⟨1, 2⟩ :=
  ⟨by decide, by decide,
    (c8_unrecognized_processed_as_move currentSquaresState ⟨1, 2, "wat"⟩
      (by decide) (by decide)).1⟩

/-- Claim C10: from any snapshot in the Dragging phase, `EndDrag(p)` changes
only `dragging` (to `false`), `endPoint` (to `p`), `dragType` (to
`"cancel"`) and `squareCount` (incremented by 1); `coordinates`,
`startPoint` and hence the derived direction are unchanged, so the committed
geometry is that of the last Move, not the EndDrag position. -/
theorem c10_endDrag_frame (s : SquaresState) (x y : Int)
    (_hd : s.dragging = true) (hi : dirInv s) :
    (step s (endDrag x y)).coordinates = s.coordinates ∧
    (step s (endDrag x y)).startPoint = s.startPoint ∧
    (step s (endDrag x y)).dragDirection = s.dragDirection ∧
    (step s (endDrag x y)).dragging = false ∧
    (step s (endDrag x y)).endPoint = ⟨x, y⟩ ∧
    (step s (endDrag x y)).dragType = "cancel" ∧
    (step s (endDrag x y)).squareCount = s.squareCount + 1 := by
  obtain ⟨hL, hU⟩ := hi
  refine ⟨rfl, rfl, ?_, rfl, rfl, rfl, rfl⟩
  show DragDirection.mk (decide (s.startPoint.x > s.coordinates.x) || false)
      (decide (s.startPoint.y > s.coordinates.y) || false) = s.dragDirection
  rw [Bool.or_false, Bool.or_false, ← hL, ← hU]

/-- Witness for C10: the state after `StartDrag(1,2)` is in the Dragging
phase and satisfies the direction invariant; `EndDrag(3,4)` from it bumps
the count by exactly 1. -/
theorem c10_witness :
    (step currentSquaresState (startDrag 1 2)).dragging = true ∧
    dirInv (step currentSquaresState (startDrag 1 2)) ∧
    (step (step currentSquaresState (startDrag 1 2)) (endDrag 3 4)).squareCount
      = (step currentSquaresState (startDrag 1 2)).squareCount + 1 :=
  ⟨by decide, by decide,
    (c10_endDrag_frame (step currentSquaresState (startDrag 1 2)) 3 4
      (by decide) (by decide)).2.2.2.2.2.2⟩

end DrawASquare
